import Mathlib

/-!
Service registration against a lease store (`etcd/register.go`).

A shallow embedding of the `Register` type of package `etcd` and of its methods
`Register`, `register`, `unregister`, `heatBeat`, `UpdateHandler` and
`GetServerInfo`.

* The session (`Register`) is a record that is passed in and returned.
* Every call that leaves the process (store client, logger, goroutine launch) is
  appended to a chronological list of `Effect`s.
* The answers of the store client are given by an environment `Env`: the answer to a
  call is a function of the whole history, the call itself included.  This covers
  every deterministic store and every schedule of failures.
* A run-time panic (nil client or nil logger dereference, index out of range,
  non-positive ticker period) is the result `none`.
* Each method runs to its end without interleaving; the `select` of `heatBeat` is driven
  by a schedule that names the communication found ready at each iteration.
-/

set_option linter.dupNamespace false

deriving instance DecidableEq for Except

namespace Etcd

/-! ## Values of the Go run time and of the libraries -/

/-- Go error values: `errors.New text`, `*strconv.NumError`, and errors produced by the
store client or by the JSON codec, which are told apart by a code only. -/
inductive Error where
  | New (text : String)
  | NumError (Func : String) (Num : String) (Err : Error)
  | Ext (code : Nat)
  deriving DecidableEq, Repr

/-- The error `strconv.ErrSyntax`. -/
def ErrSyntax : Error := Error.New "invalid syntax"

/-- The error `strconv.ErrRange`. -/
def ErrRange : Error := Error.New "value out of range"

/-- Identifier of a lease (`clientv3.LeaseID`, an `int64`). -/
abbrev LeaseID := Int

/-- Identity of a channel; a nil channel is `none : Option Chan`. -/
abbrev Chan := Nat

/-- Identity of a store client (`*clientv3.Client`); a nil pointer is `none`. -/
abbrev Client := Nat

/-- Identity of a logger (`*logrus.Logger`); a nil pointer is `none`. -/
abbrev Logger := Nat

/-- Result of a library call of Go type `(T, error)` whose `T` is a pointer or a channel:
with a nil error the value is present, with an error the value is whatever the library
returned beside it (possibly nil). -/
inductive Ret (α : Type) where
  | ok (v : α)
  | fail (v : Option α) (err : Error)
  deriving DecidableEq, Repr

/-- The record `mvccpb.KeyValue`, reduced to key and value. -/
structure KeyValue where
  Key : String
  Value : String
  deriving DecidableEq, Repr

/-- The record `clientv3.GetResponse`, reduced to the fields that are read. -/
structure GetResponse where
  Count : Int
  Kvs : List KeyValue
  deriving DecidableEq, Repr

/-- The record `clientv3.LeaseKeepAliveResponse`, reduced to lease and remaining TTL. -/
structure LeaseKeepAliveResponse where
  ID : LeaseID
  TTL : Int
  deriving DecidableEq, Repr

/-- Modelled from the spec: the type `Server` is declared outside `register.go`; the spec
gives it a network address, a signed integer weight and further descriptive fields, here
the component `Ext` of an arbitrary type `X`. -/
structure Server (X : Type) where
  Addr : String
  Weight : Int
  Ext : X
  deriving DecidableEq, Repr

/-- The zero value `Server{}`. -/
def Server.zero {X : Type} [Inhabited X] : Server X := ⟨"", 0, default⟩

/-- What leaves the process, in the order in which it happens. -/
inductive Effect where
  | New (endpoints : List String) (dialTimeout : Int)
  | Grant (cli : Client) (ttl : Int)
  | KeepAlive (cli : Client) (id : LeaseID)
  | Put (cli : Client) (key : String) (val : String) (lease : LeaseID)
  | Delete (cli : Client) (key : String)
  | Revoke (cli : Client) (id : LeaseID)
  | Get (cli : Client) (key : String)
  | LogError (logger : Logger) (msg : String) (err : Error)
  | Go
  deriving DecidableEq, Repr

/-- Everything `register.go` uses and does not define.  `BuildRegisterPath` is declared
elsewhere in the package; `Marshal`, `Unmarshal` are `encoding/json`; `Quote` is
`strconv.Quote`; `ErrorText` is the method `Error()` of the library errors; `IntSize` is
`strconv.IntSize`.  The remaining fields answer the store client calls, given the history
that ends with the call; `MakeChan` names the channel allocated by `make`. -/
structure Env (X : Type) where
  BuildRegisterPath : Server X → String
  Marshal : Server X → Except Error String
  Unmarshal : String → Server X → Server X × Option Error
  Quote : String → String
  ErrorText : Nat → String
  IntSize : Nat
  New : List Effect → Ret Client
  Grant : List Effect → Except Error LeaseID
  KeepAlive : List Effect → Ret Chan
  Put : List Effect → Option Error
  Delete : List Effect → Option Error
  Revoke : List Effect → Option Error
  Get : List Effect → Except Error GetResponse
  MakeChan : List Effect → Chan

/-- The method `Error()` of an error value. -/
def Error.Error {X : Type} (env : Env X) : Error → String
  | .New text => text
  | .NumError f n e => "strconv." ++ f ++ ": parsing " ++ env.Quote n ++ ": " ++ e.Error env
  | .Ext code => env.ErrorText code

/-- Conversion of an integer to `int64` (two-complement wrap-around). -/
def wrapInt64 (x : Int) : Int := (x + 2 ^ 63) % 2 ^ 64 - 2 ^ 63

/-- The constant `time.Second`, in nanoseconds. -/
def Second : Int := 1000000000

/-- The expression `time.Duration(n) * time.Second`. -/
def seconds (n : Int) : Int := wrapInt64 (wrapInt64 n * Second)

/-! ## The session -/

/-- The struct `Register`. -/
structure Register (X : Type) where
  ServeAddrs : List String
  DialTimeout : Int
  closeCh : Option Chan
  leasesID : LeaseID
  keepAliveCh : Option Chan
  srvInfo : Server X
  interval : Int
  cli : Option Client
  logger : Option Logger
  deriving DecidableEq, Repr

/-- The constructor `NewRegister`. -/
def NewRegister {X : Type} [Inhabited X] (serverAdds : List String) (logger : Option Logger) :
    Register X :=
  { ServeAddrs := serverAdds, DialTimeout := 3, closeCh := none, leasesID := 0,
    keepAliveCh := none, srvInfo := Server.zero, interval := 0, cli := none,
    logger := logger }

/-- The method `register`: grant a lease, open its keep-alive stream, serialize the
descriptor and put it under the lease.  The result is the session, the history and the
returned error. -/
def Register.register {X : Type} (env : Env X) (r : Register X) (t : List Effect) :
    Option (Register X × List Effect × Option Error) :=
  match r.cli with
  | none => none
  | some c =>
    let t1 := t ++ [Effect.Grant c r.interval]
    match env.Grant t1 with
    | .error e => some (r, t1, some e)
    | .ok id =>
      let r1 := { r with leasesID := id }
      let t2 := t1 ++ [Effect.KeepAlive c id]
      match env.KeepAlive t2 with
      | .fail ch e => some ({ r1 with keepAliveCh := ch }, t2, some e)
      | .ok ch =>
        let r2 := { r1 with keepAliveCh := some ch }
        match env.Marshal r2.srvInfo with
        | .error e => some (r2, t2, some e)
        | .ok data =>
          let t3 := t2 ++ [Effect.Put c (env.BuildRegisterPath r2.srvInfo) data id]
          some (r2, t3, env.Put t3)

/-- The method `unregister`: delete the key of the descriptor. -/
def Register.unregister {X : Type} (env : Env X) (r : Register X) (t : List Effect) :
    Option (List Effect × Option Error) :=
  match r.cli with
  | none => none
  | some c =>
    let t1 := t ++ [Effect.Delete c (env.BuildRegisterPath r.srvInfo)]
    some (t1, env.Delete t1)

/-- The statement `if err != nil then r.logger.Error(msg, err)`. -/
def Register.logIfErr {X : Type} (r : Register X) (t : List Effect) (msg : String) :
    Option Error → Option (List Effect)
  | none => some t
  | some err =>
    match r.logger with
    | none => none
    | some l => some (t ++ [Effect.LogError l msg err])

/-- The communication that a `select` of `heatBeat` finds ready: a value on the stop
channel `ch`, the value `res` (nil when the channel is closed) on the keep-alive channel
`ch`, or a tick of the ticker. -/
inductive Ready where
  | closeCh (ch : Chan)
  | keepAliveCh (ch : Chan) (res : Option LeaseKeepAliveResponse)
  | ticker
  deriving DecidableEq, Repr

/-- One iteration of the `for` loop of `heatBeat`: the `select` statement, given the
communication that is ready.  A communication on a channel that the session does not hold
in `closeCh` or `keepAliveCh` is not one of the cases of the `select` and leaves the
iteration waiting.  No case leaves the loop. -/
def Register.heatBeatSelect {X : Type} (env : Env X) (r : Register X) (t : List Effect) :
    Ready → Option (Register X × List Effect)
  | .closeCh ch =>
    if r.closeCh = some ch then
      match r.unregister env t with
      | none => none
      | some (t1, err1) =>
        match r.logIfErr t1 "unregister failed, error: " err1 with
        | none => none
        | some t2 =>
          match r.cli with
          | none => none
          | some c =>
            let t3 := t2 ++ [Effect.Revoke c r.leasesID]
            match r.logIfErr t3 "revoke failed, error: " (env.Revoke t3) with
            | none => none
            | some t4 => some (r, t4)
    else some (r, t)
  | .keepAliveCh ch res =>
    if r.keepAliveCh = some ch then
      match res with
      | some _ => some (r, t)
      | none =>
        match r.register env t with
        | none => none
        | some (r1, t1, err) =>
          match r1.logIfErr t1 "register failed, error: " err with
          | none => none
          | some t2 => some (r1, t2)
    else some (r, t)
  | .ticker =>
    if r.keepAliveCh = none then
      match r.register env t with
      | none => none
      | some (r1, t1, err) =>
        match r1.logIfErr t1 "register failed, error: " err with
        | none => none
        | some t2 => some (r1, t2)
    else some (r, t)

/-- The `for` loop of `heatBeat`, run over a finite schedule of ready communications. -/
def Register.heatBeatLoop {X : Type} (env : Env X) (r : Register X) (t : List Effect) :
    List Ready → Option (Register X × List Effect)
  | [] => some (r, t)
  | ev :: evs =>
    match r.heatBeatSelect env t ev with
    | none => none
    | some (r1, t1) => Register.heatBeatLoop env r1 t1 evs

/-- The method `heatBeat`: `time.NewTicker` panics on a period that is not positive, then
the loop runs. -/
def Register.heatBeat {X : Type} (env : Env X) (r : Register X) (t : List Effect)
    (evs : List Ready) : Option (Register X × List Effect) :=
  if seconds r.interval ≤ 0 then none else r.heatBeatLoop env t evs

/-! ## The weight update handler -/

/-- The type `url.Values`. -/
abbrev Values := List (String × List String)

/-- The method `Values.Get`: the first value of the key, or the empty string. -/
def Values.Get (v : Values) (key : String) : String :=
  match v.lookup key with
  | some (x :: _) => x
  | _ => ""

/-- The request, reduced to `req.URL.Query()`. -/
structure Request where
  Query : Values

/-- An `http.ResponseWriter` that records the status and the body. -/
structure ResponseWriter where
  wroteHeader : Bool
  status : Nat
  body : String
  deriving DecidableEq, Repr

/-- A response writer on which nothing has been written. -/
def ResponseWriter.fresh : ResponseWriter := ⟨false, 0, ""⟩

/-- The method `WriteHeader`: only the first call sets the status. -/
def ResponseWriter.WriteHeader (w : ResponseWriter) (code : Nat) : ResponseWriter :=
  if w.wroteHeader then w else { w with wroteHeader := true, status := code }

/-- The method `Write`: it implies `WriteHeader(http.StatusOK)` when no header was written. -/
def ResponseWriter.Write (w : ResponseWriter) (b : String) : ResponseWriter :=
  let w1 := w.WriteHeader 200
  { w1 with body := w1.body ++ b }

/-- The constant `http.StatusBadRequest`. -/
def StatusBadRequest : Nat := 400

/-- The constant `http.StatusInternalServerError`. -/
def StatusInternalServerError : Nat := 500

/-- The digit loop of `strconv.ParseUint` in base 10: `n` is the value read so far,
`maxVal` the largest value of the bit size.  A byte that is no decimal digit is a syntax
error, an overflow is a range error; the first of the two that the scan meets wins. -/
def parseUintLoop (maxVal : Nat) : Nat → List Char → Except Error Nat
  | n, [] => .ok n
  | n, c :: cs =>
    if 48 ≤ c.toNat ∧ c.toNat ≤ 57 then
      if (2 ^ 64 - 1) / 10 + 1 ≤ n then .error ErrRange
      else if 2 ^ 64 ≤ n * 10 + (c.toNat - 48) ∨ maxVal < n * 10 + (c.toNat - 48) then
        .error ErrRange
      else parseUintLoop maxVal (n * 10 + (c.toNat - 48)) cs
    else .error ErrSyntax

/-- The function `strconv.Atoi` for an `int` of `intSize` bits: an optional sign, then at
least one decimal digit; the error is a `NumError` of function `Atoi` on the whole input. -/
def Atoi (intSize : Nat) (s : String) : Except Error Int :=
  let neg : Bool := s.data.head? = some '-'
  let ds : List Char :=
    match s.data with
    | '+' :: cs => cs
    | '-' :: cs => cs
    | cs => cs
  if ds = [] then .error (Error.NumError "Atoi" s ErrSyntax)
  else
    match parseUintLoop (2 ^ intSize - 1) 0 ds with
    | .error e => .error (Error.NumError "Atoi" s e)
    | .ok un =>
      if neg = false ∧ 2 ^ (intSize - 1) ≤ un then .error (Error.NumError "Atoi" s ErrRange)
      else if neg = true ∧ 2 ^ (intSize - 1) < un then
        .error (Error.NumError "Atoi" s ErrRange)
      else .ok (if neg then - (un : Int) else (un : Int))

/-- The handler returned by `UpdateHandler`, applied to a response writer and a request. -/
def Register.UpdateHandler {X : Type} (env : Env X) (r : Register X) (t : List Effect)
    (w : ResponseWriter) (req : Request) :
    Option (Register X × List Effect × ResponseWriter) :=
  let weightstr := req.Query.Get "weight"
  match Atoi env.IntSize weightstr with
  | .error err => some (r, t, (w.WriteHeader StatusBadRequest).Write (err.Error env))
  | .ok weight =>
    let r1 := { r with srvInfo := { r.srvInfo with Weight := weight } }
    match env.Marshal r1.srvInfo with
    | .error err =>
      some (r1, t, (w.WriteHeader StatusInternalServerError).Write (err.Error env))
    | .ok data =>
      match r1.cli with
      | none => none
      | some c =>
        let t1 := t ++ [Effect.Put c (env.BuildRegisterPath r1.srvInfo) data r1.leasesID]
        match env.Put t1 with
        | some err =>
          some (r1, t1, (w.WriteHeader StatusInternalServerError).Write (err.Error env))
        | none => some (r1, t1, w.Write "update server weight success")

/-! ## Reading back -/

/-- The method `GetServerInfo`: the descriptor, the error and the history. -/
def Register.GetServerInfo {X : Type} [Inhabited X] (env : Env X) (r : Register X)
    (t : List Effect) : Option (Server X × Option Error × List Effect) :=
  match r.cli with
  | none => none
  | some c =>
    let t1 := t ++ [Effect.Get c (env.BuildRegisterPath r.srvInfo)]
    match env.Get t1 with
    | .error err => some (r.srvInfo, some err, t1)
    | .ok resp =>
      if 1 ≤ resp.Count then
        match resp.Kvs[0]? with
        | none => none
        | some kv =>
          let res := env.Unmarshal kv.Value Server.zero
          some (res.1, res.2, t1)
      else some (Server.zero, none, t1)

/-! ## Registration -/

/-- The pieces of a list of characters between the occurrences of `sep`. -/
def splitChars (sep : Char) : List Char → List (List Char)
  | [] => [[]]
  | c :: cs =>
    if c = sep then [] :: splitChars sep cs
    else
      match splitChars sep cs with
      | [] => [[c]]
      | h :: tl => (c :: h) :: tl

/-- The function `strings.Split` for a separator of one character. -/
def Split (s : String) (sep : Char) : List String :=
  (splitChars sep s.data).map String.mk

/-- The method `Register`: check the address, connect, store descriptor and interval,
call `register`, then make the stop channel and launch `heatBeat`.  The result is the
session, the history, the returned stop channel and the returned error. -/
def Register.Register {X : Type} (env : Env X) (r : Register X) (t : List Effect)
    (srvInfo : Server X) (interval : Int) :
    Option (Register X × List Effect × Option Chan × Option Error) :=
  match (Split srvInfo.Addr ':')[0]? with
  | none => none
  | some host =>
    if host = "" then some (r, t, none, some (Error.New "invalid ip address"))
    else
      let t1 := t ++ [Effect.New r.ServeAddrs (seconds r.DialTimeout)]
      match env.New t1 with
      | .fail c err => some ({ r with cli := c }, t1, none, some err)
      | .ok c =>
        let r1 := { r with cli := some c, srvInfo := srvInfo, interval := interval }
        match r1.register env t1 with
        | none => none
        | some (r2, t2, some err) => some (r2, t2, none, some err)
        | some (r2, t2, none) =>
          let ch := env.MakeChan t2
          some ({ r2 with closeCh := some ch }, t2 ++ [Effect.Go], some ch, none)

/-! ## A concrete store, for the examples

The store below answers from the history alone: it keeps what was put, forgets what was
deleted or whose lease was revoked, and numbers leases and channels consecutively. -/

/-- The value and lease stored at `key` after the history. -/
def stored (key : String) (t : List Effect) : Option (String × LeaseID) :=
  t.foldl (fun cur e =>
    match e with
    | .Put _ k v l => if k = key then some (v, l) else cur
    | .Delete _ k => if k = key then none else cur
    | .Revoke _ l =>
      match cur with
      | some (v, l0) => if l0 = l then none else some (v, l0)
      | none => none
    | _ => cur) none

/-- The number of leases granted in the history. -/
def grants (t : List Effect) : Nat :=
  (t.filter (fun e => match e with | .Grant _ _ => true | _ => false)).length

/-- The number of keep-alive streams opened in the history. -/
def streams (t : List Effect) : Nat :=
  (t.filter (fun e => match e with | .KeepAlive _ _ => true | _ => false)).length

/-- A store in which every call succeeds.  The codec writes a descriptor as its address,
a bar and its weight in decimal. -/
def okEnv : Env Unit where
  BuildRegisterPath := fun s => "/srv/" ++ s.Addr
  Marshal := fun s => .ok (s.Addr ++ "|" ++ toString s.Weight)
  Unmarshal := fun d z =>
    match Split d '|' with
    | [a, w] =>
      match Atoi 64 w with
      | .ok n => (⟨a, n, ()⟩, none)
      | .error e => (z, some e)
    | _ => (z, some (Error.Ext 2))
  Quote := fun s => "\"" ++ s ++ "\""
  ErrorText := fun _ => "store error"
  IntSize := 64
  New := fun _ => .ok 1
  Grant := fun t => .ok (100 + grants t)
  KeepAlive := fun t => .ok (streams t)
  Put := fun _ => none
  Delete := fun _ => none
  Revoke := fun _ => none
  Get := fun t =>
    match t.getLast? with
    | some (.Get _ k) =>
      match stored k t with
      | some (v, _) => .ok ⟨1, [⟨k, v⟩]⟩
      | none => .ok ⟨0, []⟩
    | _ => .error (Error.Ext 0)
  MakeChan := fun _ => 0

/-- The descriptor of the scenario of the spec: address `10.0.0.5:9000`, weight 10. -/
def srvA : Server Unit := ⟨"10.0.0.5:9000", 10, ()⟩

/-- A session on which `Register` has not been called. -/
def r0 : Register Unit := NewRegister ["127.0.0.1:2379"] (some 0)

/-- The session after `Register(srvA, 5)` against `okEnv`. -/
def rA : Register Unit :=
  { ServeAddrs := ["127.0.0.1:2379"], DialTimeout := 3, closeCh := some 0, leasesID := 101,
    keepAliveCh := some 1, srvInfo := srvA, interval := 5, cli := some 1, logger := some 0 }

/-- The history after `Register(srvA, 5)` against `okEnv`. -/
def tA : List Effect :=
  [.New ["127.0.0.1:2379"] 3000000000, .Grant 1 5, .KeepAlive 1 101,
   .Put 1 "/srv/10.0.0.5:9000" "10.0.0.5:9000|10" 101, .Go]

/-- The store `okEnv` with lease grants failing. -/
def grantFailEnv : Env Unit := { okEnv with Grant := fun _ => .error (Error.Ext 1) }

/-- The store `okEnv` with the keep-alive open failing and returning the value `ch`
beside the error. -/
def keepAliveFailEnv (ch : Option Chan) : Env Unit :=
  { okEnv with KeepAlive := fun _ => .fail ch (Error.Ext 3) }

/-- The store `okEnv` with the connection failing. -/
def dialFailEnv : Env Unit := { okEnv with New := fun _ => .fail none (Error.Ext 4) }

/-- A session built by `NewRegister` with a nil logger, before `Register`. -/
def r0nil : Register Unit := NewRegister ["127.0.0.1:2379"] none

/-- The session after `Register(srvA, 5)` on `r0nil`: it is `rA` without a logger. -/
def rN : Register Unit := { rA with logger := none }

theorem splitChars_head (sep : Char) (cs : List Char) :
    ∃ tl, splitChars sep cs = cs.takeWhile (fun c => c != sep) :: tl := by
  induction cs with
  | nil => exact ⟨[], rfl⟩
  | cons c cs ih =>
    obtain ⟨tl, htl⟩ := ih
    by_cases hc : c = sep
    · exact ⟨splitChars sep cs, by simp [splitChars, hc]⟩
    · exact ⟨tl, by simp [splitChars, hc, htl]⟩

theorem Split_head (s : String) (sep : Char) :
    (Split s sep)[0]? = some (String.mk (s.data.takeWhile (fun c => c != sep))) := by
  obtain ⟨tl, htl⟩ := splitChars_head sep s.data
  simp [Split, htl]

theorem mk_eq_empty_iff (cs : List Char) : String.mk cs = "" ↔ cs = [] := by
  constructor
  · intro h
    have := congrArg String.data h
    simpa using this
  · intro h
    subst h
    rfl

/-- A call of `register` on a session with a client returns: it does not panic. -/
theorem register_total {X : Type} (env : Env X) (r : Register X) (t : List Effect) (c : Client)
    (hc : r.cli = some c) : ∃ r1 t1 err, r.register env t = some (r1, t1, err) := by
  unfold Register.register
  simp only [hc]
  split
  · exact ⟨_, _, _, rfl⟩
  · split
    · exact ⟨_, _, _, rfl⟩
    · split
      · exact ⟨_, _, _, rfl⟩
      · exact ⟨_, _, _, rfl⟩

/-- What `register` leaves untouched, and what it appends to the history. -/
theorem register_frame {X : Type} (env : Env X) (r r1 : Register X) (t t1 : List Effect)
    (err : Option Error) (h : r.register env t = some (r1, t1, err)) :
    r1.closeCh = r.closeCh ∧ r1.srvInfo = r.srvInfo ∧ r1.interval = r.interval ∧
    r1.cli = r.cli ∧ r1.logger = r.logger ∧ r1.ServeAddrs = r.ServeAddrs ∧
    r1.DialTimeout = r.DialTimeout ∧ ∃ suf, t1 = t ++ suf ∧ Effect.Go ∉ suf := by
  unfold Register.register at h
  split at h
  · exact absurd h (by simp)
  · dsimp only at h
    split at h
    · simp only [Option.some.injEq, Prod.mk.injEq] at h
      obtain ⟨rfl, rfl, -⟩ := h
      exact ⟨rfl, rfl, rfl, rfl, rfl, rfl, rfl, _, rfl, by simp⟩
    · split at h
      · simp only [Option.some.injEq, Prod.mk.injEq] at h
        obtain ⟨rfl, rfl, -⟩ := h
        exact ⟨rfl, rfl, rfl, rfl, rfl, rfl, rfl, _, by rw [List.append_assoc], by simp⟩
      · split at h
        · simp only [Option.some.injEq, Prod.mk.injEq] at h
          obtain ⟨rfl, rfl, -⟩ := h
          exact ⟨rfl, rfl, rfl, rfl, rfl, rfl, rfl, _, by rw [List.append_assoc], by simp⟩
        · simp only [Option.some.injEq, Prod.mk.injEq] at h
          obtain ⟨rfl, rfl, -⟩ := h
          exact ⟨rfl, rfl, rfl, rfl, rfl, rfl, rfl, _,
            by rw [List.append_assoc, List.append_assoc], by simp⟩

/-- The four ways through `register` after the client was found, as equations. -/
theorem register_grant_fail {X : Type} (env : Env X) (r : Register X) (t : List Effect)
    (c : Client) (e : Error) (hc : r.cli = some c)
    (hG : env.Grant (t ++ [Effect.Grant c r.interval]) = .error e) :
    r.register env t = some (r, t ++ [Effect.Grant c r.interval], some e) := by
  simp [Register.register, hc, hG]

theorem register_keepAlive_fail {X : Type} (env : Env X) (r : Register X) (t : List Effect)
    (c : Client) (id : LeaseID) (ch : Option Chan) (e : Error) (hc : r.cli = some c)
    (hG : env.Grant (t ++ [Effect.Grant c r.interval]) = .ok id)
    (hK : env.KeepAlive (t ++ [Effect.Grant c r.interval, Effect.KeepAlive c id])
      = .fail ch e) :
    r.register env t = some ({ r with leasesID := id, keepAliveCh := ch },
      t ++ [Effect.Grant c r.interval, Effect.KeepAlive c id], some e) := by
  simp [Register.register, hc, hG, hK]

theorem register_marshal_fail {X : Type} (env : Env X) (r : Register X) (t : List Effect)
    (c : Client) (id : LeaseID) (ch : Chan) (e : Error) (hc : r.cli = some c)
    (hG : env.Grant (t ++ [Effect.Grant c r.interval]) = .ok id)
    (hK : env.KeepAlive (t ++ [Effect.Grant c r.interval, Effect.KeepAlive c id]) = .ok ch)
    (hM : env.Marshal r.srvInfo = .error e) :
    r.register env t = some ({ r with leasesID := id, keepAliveCh := some ch },
      t ++ [Effect.Grant c r.interval, Effect.KeepAlive c id], some e) := by
  simp [Register.register, hc, hG, hK, hM]

theorem register_put {X : Type} (env : Env X) (r : Register X) (t : List Effect)
    (c : Client) (id : LeaseID) (ch : Chan) (data : String) (hc : r.cli = some c)
    (hG : env.Grant (t ++ [Effect.Grant c r.interval]) = .ok id)
    (hK : env.KeepAlive (t ++ [Effect.Grant c r.interval, Effect.KeepAlive c id]) = .ok ch)
    (hM : env.Marshal r.srvInfo = .ok data) :
    r.register env t = some ({ r with leasesID := id, keepAliveCh := some ch },
      t ++ [Effect.Grant c r.interval, Effect.KeepAlive c id,
        Effect.Put c (env.BuildRegisterPath r.srvInfo) data id],
      env.Put (t ++ [Effect.Grant c r.interval, Effect.KeepAlive c id,
        Effect.Put c (env.BuildRegisterPath r.srvInfo) data id])) := by
  simp [Register.register, hc, hG, hK, hM]

/-- A call of `register` that returns no error went through all four steps. -/
theorem register_ok_inv {X : Type} (env : Env X) (r r1 : Register X) (t t1 : List Effect)
    (c : Client) (hc : r.cli = some c) (h : r.register env t = some (r1, t1, none)) :
    ∃ id ch data,
      env.Grant (t ++ [Effect.Grant c r.interval]) = .ok id ∧
      env.KeepAlive (t ++ [Effect.Grant c r.interval, Effect.KeepAlive c id]) = .ok ch ∧
      env.Marshal r.srvInfo = .ok data ∧
      env.Put (t ++ [Effect.Grant c r.interval, Effect.KeepAlive c id,
        Effect.Put c (env.BuildRegisterPath r.srvInfo) data id]) = none ∧
      r1 = { r with leasesID := id, keepAliveCh := some ch } ∧
      t1 = t ++ [Effect.Grant c r.interval, Effect.KeepAlive c id,
        Effect.Put c (env.BuildRegisterPath r.srvInfo) data id] := by
  cases hG : env.Grant (t ++ [Effect.Grant c r.interval]) with
  | error e => rw [register_grant_fail env r t c e hc hG] at h; simp at h
  | ok id =>
    cases hK : env.KeepAlive (t ++ [Effect.Grant c r.interval, Effect.KeepAlive c id]) with
    | fail ch e => rw [register_keepAlive_fail env r t c id ch e hc hG hK] at h; simp at h
    | ok ch =>
      cases hM : env.Marshal r.srvInfo with
      | error e => rw [register_marshal_fail env r t c id ch e hc hG hK hM] at h; simp at h
      | ok data =>
        rw [register_put env r t c id ch data hc hG hK hM] at h
        simp only [Option.some.injEq, Prod.mk.injEq] at h
        obtain ⟨h1, h2, h3⟩ := h
        exact ⟨id, ch, data, rfl, hK, rfl, h3, h1.symm, h2.symm⟩

/-- A call of `register` that returns an error stopped at one of the four steps. -/
theorem register_err_inv {X : Type} (env : Env X) (r r1 : Register X) (t t1 : List Effect)
    (c : Client) (e : Error) (hc : r.cli = some c)
    (h : r.register env t = some (r1, t1, some e)) :
    (env.Grant (t ++ [Effect.Grant c r.interval]) = .error e ∧ r1 = r) ∨
    (∃ id ch, env.Grant (t ++ [Effect.Grant c r.interval]) = .ok id ∧
      env.KeepAlive (t ++ [Effect.Grant c r.interval, Effect.KeepAlive c id])
        = .fail ch e ∧ r1 = { r with leasesID := id, keepAliveCh := ch }) ∨
    (∃ id ch, env.Grant (t ++ [Effect.Grant c r.interval]) = .ok id ∧
      env.KeepAlive (t ++ [Effect.Grant c r.interval, Effect.KeepAlive c id])
        = .ok ch ∧ r1 = { r with leasesID := id, keepAliveCh := some ch }) := by
  cases hG : env.Grant (t ++ [Effect.Grant c r.interval]) with
  | error e0 =>
    rw [register_grant_fail env r t c e0 hc hG] at h
    simp only [Option.some.injEq, Prod.mk.injEq] at h
    obtain ⟨h1, -, h3⟩ := h
    subst h3
    exact Or.inl ⟨rfl, h1.symm⟩
  | ok id =>
    cases hK : env.KeepAlive (t ++ [Effect.Grant c r.interval, Effect.KeepAlive c id]) with
    | fail ch e0 =>
      rw [register_keepAlive_fail env r t c id ch e0 hc hG hK] at h
      simp only [Option.some.injEq, Prod.mk.injEq] at h
      obtain ⟨h1, -, h3⟩ := h
      subst h3
      exact Or.inr (Or.inl ⟨id, ch, rfl, hK, h1.symm⟩)
    | ok ch =>
      refine Or.inr (Or.inr ⟨id, ch, rfl, hK, ?_⟩)
      cases hM : env.Marshal r.srvInfo with
      | error e0 =>
        rw [register_marshal_fail env r t c id ch e0 hc hG hK hM] at h
        simp only [Option.some.injEq, Prod.mk.injEq] at h
        exact h.1.symm
      | ok data =>
        rw [register_put env r t c id ch data hc hG hK hM] at h
        simp only [Option.some.injEq, Prod.mk.injEq] at h
        exact h.1.symm

/-- What `Register` does once the address passed the check. -/
theorem Register_valid_host {X : Type} (env : Env X) (r : Register X) (t : List Effect)
    (srvInfo : Server X) (interval : Int)
    (hhost : srvInfo.Addr.data.takeWhile (fun c => c != ':') ≠ []) :
    Register.Register env r t srvInfo interval =
      match env.New (t ++ [Effect.New r.ServeAddrs (seconds r.DialTimeout)]) with
      | .fail c err =>
        some ({ r with cli := c }, t ++ [Effect.New r.ServeAddrs (seconds r.DialTimeout)],
          none, some err)
      | .ok c =>
        match Register.register env
            { r with cli := some c, srvInfo := srvInfo, interval := interval }
            (t ++ [Effect.New r.ServeAddrs (seconds r.DialTimeout)]) with
        | none => none
        | some (r2, t2, some err) => some (r2, t2, none, some err)
        | some (r2, t2, none) =>
          some ({ r2 with closeCh := some (env.MakeChan t2) }, t2 ++ [Effect.Go],
            some (env.MakeChan t2), none) := by
  unfold Register.Register
  rw [Split_head]
  have hne : ¬ String.mk (srvInfo.Addr.data.takeWhile (fun c => c != ':')) = "" :=
    fun h => hhost ((mk_eq_empty_iff _).1 h)
  simp only [hne, if_false]

/-- The address check of `Register`, for use in the proofs below. -/
theorem Register_rejects_empty_host_aux {X : Type} (env : Env X) (r : Register X)
    (t : List Effect) (srvInfo : Server X) (interval : Int)
    (hhost : srvInfo.Addr.data.takeWhile (fun c => c != ':') = []) :
    Register.Register env r t srvInfo interval
      = some (r, t, none, some (Error.New "invalid ip address")) := by
  unfold Register.Register
  rw [Split_head, hhost]
  rfl

/-- The ticker case of the `select` while the keep-alive channel is set. -/
theorem select_ticker_set {X : Type} (env : Env X) (r : Register X) (t : List Effect)
    (ch : Chan) (hk : r.keepAliveCh = some ch) :
    r.heatBeatSelect env t .ticker = some (r, t) := by
  simp [Register.heatBeatSelect, hk]

/-- The ticker case of the `select` while the keep-alive channel is nil. -/
theorem select_ticker_unset {X : Type} (env : Env X) (r r1 : Register X) (t t1 t2 : List Effect)
    (err : Option Error) (hk : r.keepAliveCh = none)
    (hreg : r.register env t = some (r1, t1, err))
    (hlog : r1.logIfErr t1 "register failed, error: " err = some t2) :
    r.heatBeatSelect env t .ticker = some (r1, t2) := by
  simp [Register.heatBeatSelect, hk, hreg, hlog]

/-- The keep-alive case of the `select` on a nil value. -/
theorem select_keepAlive_nil {X : Type} (env : Env X) (r r1 : Register X)
    (t t1 t2 : List Effect) (ch : Chan) (err : Option Error) (hk : r.keepAliveCh = some ch)
    (hreg : r.register env t = some (r1, t1, err))
    (hlog : r1.logIfErr t1 "register failed, error: " err = some t2) :
    r.heatBeatSelect env t (.keepAliveCh ch none) = some (r1, t2) := by
  simp [Register.heatBeatSelect, hk, hreg, hlog]

/-- Logging an error on a session with a logger. -/
theorem logIfErr_some {X : Type} (r : Register X) (t : List Effect) (msg : String)
    (e : Error) (l : Logger) (hl : r.logger = some l) :
    r.logIfErr t msg (some e) = some (t ++ [Effect.LogError l msg e]) := by
  simp [Register.logIfErr, hl]

/-- The history that `register` appends starts with its lease grant and holds no other. -/
theorem register_history {X : Type} (env : Env X) (r r1 : Register X) (t t1 : List Effect)
    (c : Client) (err : Option Error) (hc : r.cli = some c)
    (h : r.register env t = some (r1, t1, err)) :
    ∃ suf, t1 = t ++ Effect.Grant c r.interval :: suf ∧
      ∀ c0 ttl, Effect.Grant c0 ttl ∉ suf := by
  cases hG : env.Grant (t ++ [Effect.Grant c r.interval]) with
  | error e =>
    rw [register_grant_fail env r t c e hc hG] at h
    simp only [Option.some.injEq, Prod.mk.injEq] at h
    exact ⟨[], h.2.1.symm, by simp⟩
  | ok id =>
    cases hK : env.KeepAlive (t ++ [Effect.Grant c r.interval, Effect.KeepAlive c id]) with
    | fail ch e =>
      rw [register_keepAlive_fail env r t c id ch e hc hG hK] at h
      simp only [Option.some.injEq, Prod.mk.injEq] at h
      exact ⟨[Effect.KeepAlive c id], h.2.1.symm, by simp⟩
    | ok ch =>
      cases hM : env.Marshal r.srvInfo with
      | error e =>
        rw [register_marshal_fail env r t c id ch e hc hG hK hM] at h
        simp only [Option.some.injEq, Prod.mk.injEq] at h
        exact ⟨[Effect.KeepAlive c id], h.2.1.symm, by simp⟩
      | ok data =>
        rw [register_put env r t c id ch data hc hG hK hM] at h
        simp only [Option.some.injEq, Prod.mk.injEq] at h
        exact ⟨[Effect.KeepAlive c id, Effect.Put c (env.BuildRegisterPath r.srvInfo) data id],
          h.2.1.symm, by simp⟩

/-- The stop case of the `select` does not leave the loop: after one delete and one revoke
that succeed, the loop goes on with the communications that follow. -/
theorem heatBeatLoop_stop {X : Type} (env : Env X) (r : Register X) (t : List Effect)
    (c : Client) (ch : Chan) (evs : List Ready) (hc : r.cli = some c)
    (hs : r.closeCh = some ch)
    (hD : env.Delete (t ++ [Effect.Delete c (env.BuildRegisterPath r.srvInfo)]) = none)
    (hR : env.Revoke (t ++ [Effect.Delete c (env.BuildRegisterPath r.srvInfo),
      Effect.Revoke c r.leasesID]) = none) :
    r.heatBeatLoop env t (.closeCh ch :: evs)
      = r.heatBeatLoop env (t ++ [Effect.Delete c (env.BuildRegisterPath r.srvInfo),
          Effect.Revoke c r.leasesID]) evs := by
  simp [Register.heatBeatLoop, Register.heatBeatSelect, Register.unregister,
    Register.logIfErr, hc, hs, hD, hR]

/-- Logging an error on a session without a logger panics. -/
theorem logIfErr_nil_logger {X : Type} (r : Register X) (t : List Effect) (msg : String)
    (e : Error) (hl : r.logger = none) : r.logIfErr t msg (some e) = none := by
  simp [Register.logIfErr, hl]

/-- An iteration of the loop that returns leaves client, logger, stop channel, descriptor
and interval of the session as they were. -/
theorem heatBeatSelect_frame {X : Type} (env : Env X) (r r1 : Register X)
    (t t1 : List Effect) (ev : Ready) (h : r.heatBeatSelect env t ev = some (r1, t1)) :
    r1.cli = r.cli ∧ r1.logger = r.logger ∧ r1.closeCh = r.closeCh ∧
    r1.srvInfo = r.srvInfo ∧ r1.interval = r.interval := by
  have hreg : ∀ (r2 : Register X) (t2 : List Effect),
      (match r.register env t with
        | none => none
        | some (r1, t1, err) =>
          match r1.logIfErr t1 "register failed, error: " err with
          | none => none
          | some t2 => some (r1, t2)) = some (r2, t2) →
      r2.cli = r.cli ∧ r2.logger = r.logger ∧ r2.closeCh = r.closeCh ∧
      r2.srvInfo = r.srvInfo ∧ r2.interval = r.interval := by
    intro r2 t2 h2
    cases hr : r.register env t with
    | none => rw [hr] at h2; simp at h2
    | some v =>
      obtain ⟨r3, t3, err⟩ := v
      rw [hr] at h2
      dsimp only at h2
      cases hlog : r3.logIfErr t3 "register failed, error: " err with
      | none => rw [hlog] at h2; simp at h2
      | some t4 =>
        rw [hlog] at h2
        simp only [Option.some.injEq, Prod.mk.injEq] at h2
        obtain ⟨h3, -⟩ := h2
        subst h3
        obtain ⟨f1, f2, f3, f4, f5, -⟩ := register_frame env r r3 t t3 err hr
        exact ⟨f4, f5, f1, f2, f3⟩
  have hsame : ∀ (t2 : List Effect), some (r, t2) = some (r1, t1) →
      r1.cli = r.cli ∧ r1.logger = r.logger ∧ r1.closeCh = r.closeCh ∧
      r1.srvInfo = r.srvInfo ∧ r1.interval = r.interval := by
    intro t2 h2
    simp only [Option.some.injEq, Prod.mk.injEq] at h2
    obtain ⟨h3, -⟩ := h2
    subst h3
    exact ⟨rfl, rfl, rfl, rfl, rfl⟩
  cases ev with
  | closeCh ch =>
    simp only [Register.heatBeatSelect] at h
    split at h
    · split at h
      · simp at h
      · split at h
        · simp at h
        · split at h
          · simp at h
          · split at h
            · simp at h
            · exact hsame _ h
    · exact hsame _ h
  | keepAliveCh ch res =>
    simp only [Register.heatBeatSelect] at h
    split at h
    · cases res with
      | some v => exact hsame _ h
      | none => exact hreg r1 t1 h
    · exact hsame _ h
  | ticker =>
    simp only [Register.heatBeatSelect] at h
    split at h
    · exact hreg r1 t1 h
    · exact hsame _ h

/-- A `Register` call that returns no error leaves a session with a client, with the
logger it had, and with a keep-alive channel. -/
theorem Register_success_session {X : Type} (env : Env X) (r r1 : Register X)
    (t t1 : List Effect) (srvInfo : Server X) (interval : Int) (stop : Option Chan)
    (h : Register.Register env r t srvInfo interval = some (r1, t1, stop, none)) :
    (∃ c, r1.cli = some c) ∧ r1.logger = r.logger ∧ ∃ ch, r1.keepAliveCh = some ch := by
  have hhost : srvInfo.Addr.data.takeWhile (fun c => c != ':') ≠ [] := by
    intro h0
    rw [Register_rejects_empty_host_aux env r t srvInfo interval h0] at h
    simp at h
  rw [Register_valid_host env r t srvInfo interval hhost] at h
  cases hN : env.New (t ++ [Effect.New r.ServeAddrs (seconds r.DialTimeout)]) with
  | fail c e => rw [hN] at h; simp at h
  | ok c =>
    rw [hN] at h
    dsimp only at h
    obtain ⟨r2, t2, err, hreg⟩ := register_total env
      { r with cli := some c, srvInfo := srvInfo, interval := interval }
      (t ++ [Effect.New r.ServeAddrs (seconds r.DialTimeout)]) c rfl
    rw [hreg] at h
    cases err with
    | some e => simp at h
    | none =>
      simp only [Option.some.injEq, Prod.mk.injEq] at h
      obtain ⟨h1, -, -, -⟩ := h
      obtain ⟨id, ch, data, -, -, -, -, hr2, -⟩ := register_ok_inv env _ r2 _ t2 c rfl hreg
      subst h1
      subst hr2
      exact ⟨⟨c, rfl⟩, rfl, ⟨ch, rfl⟩⟩

/-! ## The claims -/

/-- C2: for every descriptor whose address has an empty host component (nothing before
the first colon), `Register` returns the error `invalid ip address` and a nil stop channel,
and both the session and the history are exactly what they were: no client is created, no
store call is issued, no heartbeat loop is launched. -/
theorem Register_rejects_empty_host {X : Type} (env : Env X) (r : Register X)
    (t : List Effect) (srvInfo : Server X) (interval : Int)
    (hhost : srvInfo.Addr.data.takeWhile (fun c => c != ':') = []) :
    Register.Register env r t srvInfo interval
      = some (r, t, none, some (Error.New "invalid ip address")) := by
  unfold Register.Register
  rw [Split_head, hhost]
  rfl

theorem Register_rejects_empty_host_witness :
    (":9000".data.takeWhile (fun c => c != ':') = []) ∧
    Register.Register okEnv r0 [] ⟨":9000", 10, ()⟩ 5
      = some (r0, [], none, some (Error.New "invalid ip address")) :=
  ⟨by decide, Register_rejects_empty_host okEnv r0 [] ⟨":9000", 10, ()⟩ 5 (by decide)⟩

/-- C4: for every `Register` call with a non-empty host in which the connection fails, or
in which `register` (grant, keep-alive open, serialize, put) fails, `Register` returns
that error with a nil stop channel, the stop channel of the session is what it was, and
nothing appended to the history is the launch of the heartbeat loop. -/
theorem Register_failure_launches_nothing {X : Type} (env : Env X) (r : Register X)
    (t : List Effect) (srvInfo : Server X) (interval : Int)
    (hhost : srvInfo.Addr.data.takeWhile (fun c => c != ':') ≠ []) :
    (∀ c e, env.New (t ++ [Effect.New r.ServeAddrs (seconds r.DialTimeout)]) = .fail c e →
      Register.Register env r t srvInfo interval
        = some ({ r with cli := c },
            t ++ [Effect.New r.ServeAddrs (seconds r.DialTimeout)], none, some e)) ∧
    (∀ c r2 t2 e, env.New (t ++ [Effect.New r.ServeAddrs (seconds r.DialTimeout)]) = .ok c →
      Register.register env { r with cli := some c, srvInfo := srvInfo, interval := interval }
        (t ++ [Effect.New r.ServeAddrs (seconds r.DialTimeout)]) = some (r2, t2, some e) →
      Register.Register env r t srvInfo interval = some (r2, t2, none, some e) ∧
      r2.closeCh = r.closeCh ∧ ∃ suf, t2 = t ++ suf ∧ Effect.Go ∉ suf) := by
  refine ⟨?_, ?_⟩
  · intro c e hN
    rw [Register_valid_host env r t srvInfo interval hhost, hN]
  · intro c r2 t2 e hN hreg
    refine ⟨?_, ?_, ?_⟩
    · rw [Register_valid_host env r t srvInfo interval hhost, hN]
      simp only [hreg]
    · exact (register_frame env _ r2 _ t2 _ hreg).1
    · obtain ⟨suf, hsuf, hgo⟩ := (register_frame env _ r2 _ t2 _ hreg).2.2.2.2.2.2.2
      refine ⟨Effect.New r.ServeAddrs (seconds r.DialTimeout) :: suf, ?_, ?_⟩
      · rw [hsuf]; simp
      · simp [hgo]

theorem Register_failure_launches_nothing_witness :
    ("10.0.0.5:9000".data.takeWhile (fun c => c != ':') ≠ []) ∧
    Register.Register dialFailEnv r0 [] srvA 5
      = some (r0, [Effect.New ["127.0.0.1:2379"] 3000000000], none, some (Error.Ext 4)) ∧
    Register.Register grantFailEnv r0 [] srvA 5
      = some ({ r0 with cli := some 1, srvInfo := srvA, interval := 5 },
          [Effect.New ["127.0.0.1:2379"] 3000000000, Effect.Grant 1 5], none,
          some (Error.Ext 1)) :=
  ⟨by decide,
   (Register_failure_launches_nothing dialFailEnv r0 [] srvA 5 (by decide)).1 none
      (Error.Ext 4) rfl,
   ((Register_failure_launches_nothing grantFailEnv r0 [] srvA 5 (by decide)).2 1
      { r0 with cli := some 1, srvInfo := srvA, interval := 5 }
      [Effect.New ["127.0.0.1:2379"] 3000000000, Effect.Grant 1 5] (Error.Ext 1) rfl rfl).1⟩

/-- C5: every `Register(srvInfo, interval)` call that returns no error granted one lease
with TTL `interval`, holds the granted id as lease id, and appended to the history exactly
the connection, that grant, the keep-alive open, one put at the key of the descriptor
under that lease with the serialization of `srvInfo` as value, and the launch of the
heartbeat loop.  If deserialization inverts the serialization of `srvInfo`, the put value
deserializes to `srvInfo`, and a following `GetServerInfo` against a store that answers
with that put returns `srvInfo` and no error. -/
theorem Register_success_publishes {X : Type} [Inhabited X] (env : Env X) (r r1 : Register X)
    (t t1 : List Effect) (srvInfo : Server X) (interval : Int) (stop : Option Chan)
    (h : Register.Register env r t srvInfo interval = some (r1, t1, stop, none)) :
    ∃ c id ch data,
      env.Grant (t ++ [Effect.New r.ServeAddrs (seconds r.DialTimeout),
        Effect.Grant c interval]) = .ok id ∧
      env.Marshal srvInfo = .ok data ∧
      t1 = t ++ [Effect.New r.ServeAddrs (seconds r.DialTimeout), Effect.Grant c interval,
        Effect.KeepAlive c id, Effect.Put c (env.BuildRegisterPath srvInfo) data id,
        Effect.Go] ∧
      r1 = { r with
        cli := some c, srvInfo := srvInfo, interval := interval, leasesID := id,
        keepAliveCh := some ch, closeCh := stop } ∧
      stop ≠ none ∧
      ((∀ d, env.Marshal srvInfo = .ok d → env.Unmarshal d Server.zero = (srvInfo, none)) →
        (env.Unmarshal data Server.zero).1 = srvInfo ∧
        (env.Get (t1 ++ [Effect.Get c (env.BuildRegisterPath srvInfo)])
            = .ok ⟨1, [⟨env.BuildRegisterPath srvInfo, data⟩]⟩ →
          r1.GetServerInfo env t1
            = some (srvInfo, none, t1 ++ [Effect.Get c (env.BuildRegisterPath srvInfo)]))) := by
  have hhost : srvInfo.Addr.data.takeWhile (fun c => c != ':') ≠ [] := by
    intro h0
    rw [Register_rejects_empty_host_aux env r t srvInfo interval h0] at h
    simp at h
  rw [Register_valid_host env r t srvInfo interval hhost] at h
  cases hN : env.New (t ++ [Effect.New r.ServeAddrs (seconds r.DialTimeout)]) with
  | fail c e => rw [hN] at h; simp at h
  | ok c =>
    rw [hN] at h
    dsimp only at h
    obtain ⟨r2, t2, err, hreg⟩ := register_total env
      { r with cli := some c, srvInfo := srvInfo, interval := interval }
      (t ++ [Effect.New r.ServeAddrs (seconds r.DialTimeout)]) c rfl
    rw [hreg] at h
    cases err with
    | some e => simp at h
    | none =>
      simp only [Option.some.injEq, Prod.mk.injEq] at h
      obtain ⟨h1, h2, h3, -⟩ := h
      obtain ⟨id, ch, data, hG, -, hM, -, hr2, ht2⟩ := register_ok_inv env _ r2 _ t2 c rfl hreg
      dsimp only at hG hM hr2 ht2
      refine ⟨c, id, ch, data, ?_, hM, ?_, ?_, ?_, ?_⟩
      · simpa using hG
      · rw [← h2, ht2]; simp
      · rw [← h1, hr2, ← h3]
      · rw [← h3]; simp
      · intro hinv
        have hU := hinv data hM
        refine ⟨by rw [hU], ?_⟩
        intro hget
        have hcli : r1.cli = some c := by rw [← h1, hr2]
        have hsrv : r1.srvInfo = srvInfo := by rw [← h1, hr2]
        simp [Register.GetServerInfo, hcli, hsrv, hget, hU]

theorem Register_success_publishes_witness :
    Register.Register okEnv r0 [] srvA 5 = some (rA, tA, some 0, none) ∧
    (∀ d, okEnv.Marshal srvA = .ok d → okEnv.Unmarshal d Server.zero = (srvA, none)) ∧
    okEnv.Get (tA ++ [Effect.Get 1 (okEnv.BuildRegisterPath srvA)])
      = .ok ⟨1, [⟨okEnv.BuildRegisterPath srvA, "10.0.0.5:9000|10"⟩]⟩ ∧
    rA.GetServerInfo okEnv tA = some (srvA, none, tA ++ [Effect.Get 1 "/srv/10.0.0.5:9000"]) ∧
    ∃ c id ch data,
      okEnv.Grant ([] ++ [Effect.New r0.ServeAddrs (seconds r0.DialTimeout),
        Effect.Grant c 5]) = .ok id ∧
      okEnv.Marshal srvA = .ok data ∧
      tA = [] ++ [Effect.New r0.ServeAddrs (seconds r0.DialTimeout), Effect.Grant c 5,
        Effect.KeepAlive c id, Effect.Put c (okEnv.BuildRegisterPath srvA) data id,
        Effect.Go] ∧
      rA = { r0 with
        cli := some c, srvInfo := srvA, interval := 5, leasesID := id,
        keepAliveCh := some ch, closeCh := some 0 } ∧
      (some 0 : Option Chan) ≠ none ∧
      ((∀ d, okEnv.Marshal srvA = .ok d → okEnv.Unmarshal d Server.zero = (srvA, none)) →
        (okEnv.Unmarshal data Server.zero).1 = srvA ∧
        (okEnv.Get (tA ++ [Effect.Get c (okEnv.BuildRegisterPath srvA)])
            = .ok ⟨1, [⟨okEnv.BuildRegisterPath srvA, data⟩]⟩ →
          rA.GetServerInfo okEnv tA
            = some (srvA, none, tA ++ [Effect.Get c (okEnv.BuildRegisterPath srvA)]))) :=
  ⟨rfl,
   fun d hd => by
      have hd2 : "10.0.0.5:9000|10" = d := Except.ok.inj hd
      subst hd2
      rfl,
   rfl, rfl, Register_success_publishes okEnv r0 rA [] tA srvA 5 (some 0) rfl⟩

/-- C10, as amended: when `register` fails on a session with a client, a failed lease
grant leaves the whole session unchanged; a failed keep-alive open sets the lease id to
the granted one and the keep-alive channel to the value that the client returned beside
the error; a failed serialize or put leaves the lease id as granted and the keep-alive
channel as opened.  No other field changes, and a failing call is one of these cases. -/
theorem register_failure_state {X : Type} (env : Env X) (r : Register X) (t : List Effect)
    (c : Client) (hc : r.cli = some c) :
    (∀ e, env.Grant (t ++ [Effect.Grant c r.interval]) = .error e →
      r.register env t = some (r, t ++ [Effect.Grant c r.interval], some e)) ∧
    (∀ id ch e, env.Grant (t ++ [Effect.Grant c r.interval]) = .ok id →
      env.KeepAlive (t ++ [Effect.Grant c r.interval, Effect.KeepAlive c id]) = .fail ch e →
      r.register env t = some ({ r with leasesID := id, keepAliveCh := ch },
        t ++ [Effect.Grant c r.interval, Effect.KeepAlive c id], some e)) ∧
    (∀ id ch e, env.Grant (t ++ [Effect.Grant c r.interval]) = .ok id →
      env.KeepAlive (t ++ [Effect.Grant c r.interval, Effect.KeepAlive c id]) = .ok ch →
      env.Marshal r.srvInfo = .error e →
      r.register env t = some ({ r with leasesID := id, keepAliveCh := some ch },
        t ++ [Effect.Grant c r.interval, Effect.KeepAlive c id], some e)) ∧
    (∀ id ch data e, env.Grant (t ++ [Effect.Grant c r.interval]) = .ok id →
      env.KeepAlive (t ++ [Effect.Grant c r.interval, Effect.KeepAlive c id]) = .ok ch →
      env.Marshal r.srvInfo = .ok data →
      env.Put (t ++ [Effect.Grant c r.interval, Effect.KeepAlive c id,
        Effect.Put c (env.BuildRegisterPath r.srvInfo) data id]) = some e →
      r.register env t = some ({ r with leasesID := id, keepAliveCh := some ch },
        t ++ [Effect.Grant c r.interval, Effect.KeepAlive c id,
          Effect.Put c (env.BuildRegisterPath r.srvInfo) data id], some e)) ∧
    (∀ r1 t1 e, r.register env t = some (r1, t1, some e) →
      r1 = r ∨ (∃ id ch, r1 = { r with leasesID := id, keepAliveCh := ch })) := by
  refine ⟨?_, ?_, ?_, ?_, ?_⟩
  · intro e hG
    exact register_grant_fail env r t c e hc hG
  · intro id ch e hG hK
    exact register_keepAlive_fail env r t c id ch e hc hG hK
  · intro id ch e hG hK hM
    exact register_marshal_fail env r t c id ch e hc hG hK hM
  · intro id ch data e hG hK hM hP
    rw [register_put env r t c id ch data hc hG hK hM, hP]
  · intro r1 t1 e hreg
    rcases register_err_inv env r r1 t t1 c e hc hreg with h | ⟨id, ch, -, -, h⟩ |
      ⟨id, ch, -, -, h⟩
    · exact Or.inl h.2
    · exact Or.inr ⟨id, ch, h⟩
    · exact Or.inr ⟨id, some ch, h⟩

theorem register_failure_state_witness :
    rA.cli = some 1 ∧
    rA.register grantFailEnv tA = some (rA, tA ++ [Effect.Grant 1 rA.interval],
      some (Error.Ext 1)) ∧
    rA.register (keepAliveFailEnv none) tA
      = some ({ rA with leasesID := 102, keepAliveCh := none },
          tA ++ [Effect.Grant 1 rA.interval, Effect.KeepAlive 1 102], some (Error.Ext 3)) :=
  ⟨rfl, (register_failure_state grantFailEnv rA tA 1 rfl).1 (Error.Ext 1) rfl,
   (register_failure_state (keepAliveFailEnv none) rA tA 1 rfl).2.1 102 none (Error.Ext 3)
      rfl rfl⟩

/-- C10, counterexample: on the session left by a successful `Register`, whose keep-alive
channel is channel 1, a `register` call whose keep-alive open fails does not only change
the lease id (101 to 102): the keep-alive channel becomes the value returned beside the
error, nil in the first run and channel 2 in the second. -/
theorem register_keepAlive_fail_changes_channel :
    rA.keepAliveCh = some 1 ∧ rA.leasesID = 101 ∧
    rA.register (keepAliveFailEnv none) tA
      = some ({ rA with leasesID := 102, keepAliveCh := none },
          tA ++ [Effect.Grant 1 5, Effect.KeepAlive 1 102], some (Error.Ext 3)) ∧
    rA.register (keepAliveFailEnv none) tA
      ≠ some ({ rA with leasesID := 102 },
          tA ++ [Effect.Grant 1 5, Effect.KeepAlive 1 102], some (Error.Ext 3)) ∧
    rA.register (keepAliveFailEnv (some 2)) tA
      = some ({ rA with leasesID := 102, keepAliveCh := some 2 },
          tA ++ [Effect.Grant 1 5, Effect.KeepAlive 1 102], some (Error.Ext 3)) ∧
    rA.register (keepAliveFailEnv (some 2)) tA
      ≠ some ({ rA with leasesID := 102 },
          tA ++ [Effect.Grant 1 5, Effect.KeepAlive 1 102], some (Error.Ext 3)) := by
  refine ⟨rfl, rfl, rfl, by decide, rfl, by decide⟩

/-- C8, as amended: when the loop, on a session with a client, receives nil from the
keep-alive channel it calls `register` at once (one lease grant is appended), whether the
call then succeeds or fails.  When it succeeds the iteration ends with the session and
history that `register` left.  When it fails and the session has a logger, the error is
logged and the loop goes on with the next communication.  The keep-alive channel is then
what `register` left, not always nil.  After a failed lease grant it is unchanged, hence
still set, and a tick of the ticker retries nothing.  After a failed keep-alive open that
returned a nil channel beside the error it is nil, and the next tick calls `register`
again. -/
theorem heatBeat_keepAlive_closed {X : Type} (env : Env X) (r : Register X) (t : List Effect)
    (c : Client) (ch : Chan) (hc : r.cli = some c) (hk : r.keepAliveCh = some ch) :
    (∃ r1 t1 err suf, r.register env t = some (r1, t1, err) ∧
      t1 = t ++ Effect.Grant c r.interval :: suf ∧ (∀ c0 ttl, Effect.Grant c0 ttl ∉ suf)) ∧
    (∀ r1 t1, r.register env t = some (r1, t1, none) →
      r.heatBeatSelect env t (.keepAliveCh ch none) = some (r1, t1)) ∧
    (∀ l r1 t1 e, r.logger = some l → r.register env t = some (r1, t1, some e) →
      r.heatBeatSelect env t (.keepAliveCh ch none)
        = some (r1, t1 ++ [Effect.LogError l "register failed, error: " e]) ∧
      ∀ evs, r.heatBeatLoop env t (.keepAliveCh ch none :: evs)
        = r1.heatBeatLoop env (t1 ++ [Effect.LogError l "register failed, error: " e])
            evs) ∧
    (∀ l e, r.logger = some l → env.Grant (t ++ [Effect.Grant c r.interval]) = .error e →
      r.heatBeatSelect env t (.keepAliveCh ch none)
        = some (r, t ++ [Effect.Grant c r.interval]
            ++ [Effect.LogError l "register failed, error: " e]) ∧
      ∀ t2, r.heatBeatSelect env t2 .ticker = some (r, t2)) ∧
    (∀ l id e, r.logger = some l → env.Grant (t ++ [Effect.Grant c r.interval]) = .ok id →
      env.KeepAlive (t ++ [Effect.Grant c r.interval, Effect.KeepAlive c id])
        = .fail none e →
      r.heatBeatSelect env t (.keepAliveCh ch none)
        = some ({ r with leasesID := id, keepAliveCh := none },
            t ++ [Effect.Grant c r.interval, Effect.KeepAlive c id]
              ++ [Effect.LogError l "register failed, error: " e]) ∧
      ∀ t2, ∃ r3 t3 err t4,
        Register.register env { r with leasesID := id, keepAliveCh := none } t2
          = some (r3, t3, err) ∧
        r3.logIfErr t3 "register failed, error: " err = some t4 ∧
        Register.heatBeatSelect env { r with leasesID := id, keepAliveCh := none } t2 .ticker
          = some (r3, t4)) := by
  have hsel : ∀ l r1 t1 e, r.logger = some l → r.register env t = some (r1, t1, some e) →
      r.heatBeatSelect env t (.keepAliveCh ch none)
        = some (r1, t1 ++ [Effect.LogError l "register failed, error: " e]) := by
    intro l r1 t1 e hl hreg
    have hl1 : r1.logger = some l := by
      rw [(register_frame env r r1 t t1 _ hreg).2.2.2.2.1, hl]
    exact select_keepAlive_nil env r r1 t t1 _ ch (some e) hk hreg
      (logIfErr_some r1 t1 _ e l hl1)
  refine ⟨?_, ?_, ?_, ?_, ?_⟩
  · obtain ⟨r1, t1, err, hreg⟩ := register_total env r t c hc
    obtain ⟨suf, h1, h2⟩ := register_history env r r1 t t1 c err hc hreg
    exact ⟨r1, t1, err, suf, hreg, h1, h2⟩
  · intro r1 t1 hreg
    exact select_keepAlive_nil env r r1 t t1 t1 ch none hk hreg rfl
  · intro l r1 t1 e hl hreg
    have h := hsel l r1 t1 e hl hreg
    refine ⟨h, fun evs => ?_⟩
    simp only [Register.heatBeatLoop, h]
  · intro l e hl hG
    exact ⟨hsel l r _ e hl (register_grant_fail env r t c e hc hG),
      fun t2 => select_ticker_set env r t2 ch hk⟩
  · intro l id e hl hG hK
    refine ⟨hsel l _ _ e hl (register_keepAlive_fail env r t c id none e hc hG hK), ?_⟩
    intro t2
    obtain ⟨r3, t3, err, hreg⟩ := register_total env
      { r with leasesID := id, keepAliveCh := none } t2 c hc
    have hl3 : r3.logger = some l := by
      rw [(register_frame env _ r3 t2 t3 _ hreg).2.2.2.2.1]
      exact hl
    have hlog : ∃ t4, r3.logIfErr t3 "register failed, error: " err = some t4 := by
      cases err with
      | none => exact ⟨t3, rfl⟩
      | some e3 => exact ⟨_, logIfErr_some r3 t3 _ e3 l hl3⟩
    obtain ⟨t4, hlog⟩ := hlog
    exact ⟨r3, t3, err, t4, hreg, hlog, select_ticker_unset env _ r3 t2 t3 t4 err rfl hreg hlog⟩

theorem heatBeat_keepAlive_closed_witness :
    rA.cli = some 1 ∧ rA.keepAliveCh = some 1 ∧ rA.logger = some 0 ∧
    rA.heatBeatSelect okEnv tA (.keepAliveCh 1 none)
      = some ({ rA with leasesID := 102, keepAliveCh := some 2 },
          tA ++ [Effect.Grant 1 5, Effect.KeepAlive 1 102,
            Effect.Put 1 "/srv/10.0.0.5:9000" "10.0.0.5:9000|10" 102]) ∧
    rN.heatBeatSelect okEnv tA (.keepAliveCh 1 none)
      = some ({ rN with leasesID := 102, keepAliveCh := some 2 },
          tA ++ [Effect.Grant 1 5, Effect.KeepAlive 1 102,
            Effect.Put 1 "/srv/10.0.0.5:9000" "10.0.0.5:9000|10" 102]) ∧
    rA.heatBeatSelect grantFailEnv tA (.keepAliveCh 1 none)
      = some (rA, tA ++ [Effect.Grant 1 rA.interval]
          ++ [Effect.LogError 0 "register failed, error: " (Error.Ext 1)]) ∧
    rA.heatBeatSelect (keepAliveFailEnv none) tA (.keepAliveCh 1 none)
      = some ({ rA with leasesID := 102, keepAliveCh := none },
          tA ++ [Effect.Grant 1 rA.interval, Effect.KeepAlive 1 102]
            ++ [Effect.LogError 0 "register failed, error: " (Error.Ext 3)]) :=
  ⟨rfl, rfl, rfl,
   (heatBeat_keepAlive_closed okEnv rA tA 1 1 rfl rfl).2.1
      { rA with leasesID := 102, keepAliveCh := some 2 }
      (tA ++ [Effect.Grant 1 5, Effect.KeepAlive 1 102,
        Effect.Put 1 "/srv/10.0.0.5:9000" "10.0.0.5:9000|10" 102]) rfl,
   (heatBeat_keepAlive_closed okEnv rN tA 1 1 rfl rfl).2.1
      { rN with leasesID := 102, keepAliveCh := some 2 }
      (tA ++ [Effect.Grant 1 5, Effect.KeepAlive 1 102,
        Effect.Put 1 "/srv/10.0.0.5:9000" "10.0.0.5:9000|10" 102]) rfl,
   ((heatBeat_keepAlive_closed grantFailEnv rA tA 1 1 rfl rfl).2.2.2.1 0 (Error.Ext 1)
      rfl rfl).1,
   ((heatBeat_keepAlive_closed (keepAliveFailEnv none) rA tA 1 1 rfl rfl).2.2.2.2 0 102
      (Error.Ext 3) rfl rfl rfl).1⟩

/-- C8, counterexample: the session left by a successful `Register` holds keep-alive
channel 1.  The loop receives nil from it while the store refuses lease grants: the
re-registration fails at the grant, the error is logged, and the keep-alive channel is
still channel 1, not nil.  The tick that follows therefore retries nothing, while a second
nil read from the closed channel retries at once.  On the session that `Register` leaves
when `NewRegister` was given a nil logger, the same failed attempt is not logged: the
logging call panics. -/
theorem heatBeat_grant_failure_keeps_channel :
    rA.heatBeatSelect grantFailEnv tA (.keepAliveCh 1 none)
      = some (rA, tA ++ [Effect.Grant 1 5,
          Effect.LogError 0 "register failed, error: " (Error.Ext 1)]) ∧
    rA.keepAliveCh = some 1 ∧ rA.keepAliveCh ≠ none ∧
    rA.heatBeatLoop grantFailEnv tA [.keepAliveCh 1 none, .ticker]
      = some (rA, tA ++ [Effect.Grant 1 5,
          Effect.LogError 0 "register failed, error: " (Error.Ext 1)]) ∧
    rA.heatBeatLoop grantFailEnv tA [.keepAliveCh 1 none, .keepAliveCh 1 none]
      = some (rA, tA ++ [Effect.Grant 1 5,
          Effect.LogError 0 "register failed, error: " (Error.Ext 1), Effect.Grant 1 5,
          Effect.LogError 0 "register failed, error: " (Error.Ext 1)]) ∧
    Register.Register okEnv r0nil [] srvA 5 = some (rN, tA, some 0, none) ∧
    rN.register grantFailEnv tA = some (rN, tA ++ [Effect.Grant 1 5], some (Error.Ext 1)) ∧
    rN.heatBeatSelect grantFailEnv tA (.keepAliveCh 1 none) = none := by
  refine ⟨rfl, rfl, by decide, rfl, rfl, rfl, rfl, rfl⟩

/-- C1, the code at the failing input: the loop of the session left by a successful
`Register` handles the stop communication with one delete and one revoke, and then
handles the nil that the revoked keep-alive channel yields: it grants lease 102, opens a
keep-alive stream and puts the key again. -/
theorem heatBeat_registers_after_stop :
    rA.heatBeat okEnv tA [.closeCh 0]
      = some (rA, tA ++ [Effect.Delete 1 "/srv/10.0.0.5:9000", Effect.Revoke 1 101]) ∧
    rA.heatBeat okEnv tA [.closeCh 0, .keepAliveCh 1 none]
      = some ({ rA with leasesID := 102, keepAliveCh := some 2 },
          tA ++ [Effect.Delete 1 "/srv/10.0.0.5:9000", Effect.Revoke 1 101,
            Effect.Grant 1 5, Effect.KeepAlive 1 102,
            Effect.Put 1 "/srv/10.0.0.5:9000" "10.0.0.5:9000|10" 102]) ∧
    rA.heatBeat okEnv tA [.closeCh 0, .keepAliveCh 1 none]
      ≠ rA.heatBeat okEnv tA [.closeCh 0] := by
  refine ⟨rfl, rfl, by decide⟩

/-- C6: for every weight update request whose `weight` parameter parses as the integer
`w` and whose put succeeds, the handler sets the weight of the descriptor in memory to
`w` and leaves every other field of the descriptor and of the session (the lease id
among them) as it was, appends to the history exactly one put of the reserialized
descriptor at its key under the current lease id (no grant), and responds with status
200 and the body `update server weight success`. -/
theorem UpdateHandler_success {X : Type} (env : Env X) (r : Register X) (t : List Effect)
    (req : Request) (w : Int) (c : Client) (data : String)
    (hw : Atoi env.IntSize (req.Query.Get "weight") = .ok w)
    (hc : r.cli = some c)
    (hM : env.Marshal { r.srvInfo with Weight := w } = .ok data)
    (hP : env.Put (t ++ [Effect.Put c (env.BuildRegisterPath { r.srvInfo with Weight := w })
      data r.leasesID]) = none) :
    r.UpdateHandler env t ResponseWriter.fresh req
      = some ({ r with srvInfo := { r.srvInfo with Weight := w } },
          t ++ [Effect.Put c (env.BuildRegisterPath { r.srvInfo with Weight := w }) data
            r.leasesID],
          ⟨true, 200, "update server weight success"⟩) := by
  simp only [Register.UpdateHandler, hw, hM, hc, hP]
  rfl

theorem UpdateHandler_success_witness :
    Atoi okEnv.IntSize (Values.Get [("weight", ["50"])] "weight") = .ok 50 ∧
    rA.cli = some 1 ∧
    rA.UpdateHandler okEnv tA ResponseWriter.fresh ⟨[("weight", ["50"])]⟩
      = some ({ rA with srvInfo := { rA.srvInfo with Weight := 50 } },
          tA ++ [Effect.Put 1 (okEnv.BuildRegisterPath { rA.srvInfo with Weight := 50 })
            "10.0.0.5:9000|50" rA.leasesID],
          ⟨true, 200, "update server weight success"⟩) :=
  ⟨rfl, rfl, UpdateHandler_success okEnv rA tA ⟨[("weight", ["50"])]⟩ 50 1 "10.0.0.5:9000|50"
    rfl rfl rfl rfl⟩

/-- C7: for every weight update request whose `weight` parameter does not parse as an
integer, the handler responds with status 400 and the text of the parse error, and
returns the session and the history as they were: no store call, no change of the
descriptor.  A request without the parameter is such a request: the empty string does not
parse. -/
theorem UpdateHandler_bad_weight {X : Type} (env : Env X) (r : Register X) (t : List Effect)
    (req : Request) :
    (∀ e, Atoi env.IntSize (req.Query.Get "weight") = .error e →
      r.UpdateHandler env t ResponseWriter.fresh req
        = some (r, t, ⟨true, 400, e.Error env⟩)) ∧
    (req.Query.lookup "weight" = none →
      r.UpdateHandler env t ResponseWriter.fresh req
        = some (r, t, ⟨true, 400, (Error.NumError "Atoi" "" ErrSyntax).Error env⟩)) := by
  have key : ∀ e, Atoi env.IntSize (req.Query.Get "weight") = .error e →
      r.UpdateHandler env t ResponseWriter.fresh req
        = some (r, t, ⟨true, 400, e.Error env⟩) := by
    intro e he
    simp only [Register.UpdateHandler, he]
    simp [ResponseWriter.Write, ResponseWriter.WriteHeader, ResponseWriter.fresh,
      StatusBadRequest]
  refine ⟨key, fun hmiss => key _ ?_⟩
  have hget : req.Query.Get "weight" = "" := by
    simp [Values.Get, hmiss]
  rw [hget]
  rfl

theorem UpdateHandler_bad_weight_witness :
    Atoi okEnv.IntSize (Values.Get [("weight", ["5x"])] "weight")
      = .error (Error.NumError "Atoi" "5x" ErrSyntax) ∧
    rA.UpdateHandler okEnv tA ResponseWriter.fresh ⟨[("weight", ["5x"])]⟩
      = some (rA, tA, ⟨true, 400, "strconv.Atoi: parsing \"5x\": invalid syntax"⟩) ∧
    rA.UpdateHandler okEnv tA ResponseWriter.fresh ⟨[]⟩
      = some (rA, tA, ⟨true, 400, "strconv.Atoi: parsing \"\": invalid syntax"⟩) :=
  ⟨rfl,
   (UpdateHandler_bad_weight okEnv rA tA ⟨[("weight", ["5x"])]⟩).1
      (Error.NumError "Atoi" "5x" ErrSyntax) rfl,
   (UpdateHandler_bad_weight okEnv rA tA ⟨[]⟩).2 rfl⟩

/-- C3, as amended: when the store get succeeds, `GetServerInfo` returns the zero
descriptor `Server{}` and no error if the key is absent from the store (count below 1),
and the descriptor deserialized from the first stored value, with the error of that
deserialization, if the key is present. -/
theorem GetServerInfo_get_ok {X : Type} [Inhabited X] (env : Env X) (r : Register X)
    (t : List Effect) (c : Client) (resp : GetResponse) (hc : r.cli = some c)
    (hget : env.Get (t ++ [Effect.Get c (env.BuildRegisterPath r.srvInfo)]) = .ok resp) :
    (resp.Count < 1 →
      r.GetServerInfo env t
        = some (Server.zero, none, t ++ [Effect.Get c (env.BuildRegisterPath r.srvInfo)])) ∧
    (∀ kv rest, 1 ≤ resp.Count → resp.Kvs = kv :: rest →
      r.GetServerInfo env t
        = some ((env.Unmarshal kv.Value Server.zero).1, (env.Unmarshal kv.Value Server.zero).2,
            t ++ [Effect.Get c (env.BuildRegisterPath r.srvInfo)])) := by
  refine ⟨?_, ?_⟩
  · intro hcount
    have hn : ¬ (1 ≤ resp.Count) := not_le.mpr hcount
    simp [Register.GetServerInfo, hc, hget, hn]
  · intro kv rest hcount hkvs
    simp [Register.GetServerInfo, hc, hget, hcount, hkvs]

theorem GetServerInfo_get_ok_witness :
    rA.cli = some 1 ∧
    okEnv.Get (tA ++ [Effect.Get 1 (okEnv.BuildRegisterPath rA.srvInfo)])
      = .ok ⟨1, [⟨"/srv/10.0.0.5:9000", "10.0.0.5:9000|10"⟩]⟩ ∧
    rA.GetServerInfo okEnv tA
      = some (srvA, none, tA ++ [Effect.Get 1 (okEnv.BuildRegisterPath rA.srvInfo)]) :=
  ⟨rfl, rfl,
   (GetServerInfo_get_ok okEnv rA tA 1 ⟨1, [⟨"/srv/10.0.0.5:9000", "10.0.0.5:9000|10"⟩]⟩
      rfl rfl).2 ⟨"/srv/10.0.0.5:9000", "10.0.0.5:9000|10"⟩ [] (by decide) rfl⟩

/-- C3, counterexample: after `Register` and a handled stop the key is deleted; the get
succeeds with count 0, and `GetServerInfo` returns the zero descriptor with no error, not
the descriptor held in memory (address `10.0.0.5:9000`, weight 10). -/
theorem GetServerInfo_absent_returns_zero :
    rA.srvInfo = ⟨"10.0.0.5:9000", 10, ()⟩ ∧
    okEnv.Get (tA ++ [Effect.Delete 1 "/srv/10.0.0.5:9000", Effect.Revoke 1 101,
      Effect.Get 1 "/srv/10.0.0.5:9000"]) = .ok ⟨0, []⟩ ∧
    rA.GetServerInfo okEnv
        (tA ++ [Effect.Delete 1 "/srv/10.0.0.5:9000", Effect.Revoke 1 101])
      = some (⟨"", 0, ()⟩, none,
          tA ++ [Effect.Delete 1 "/srv/10.0.0.5:9000", Effect.Revoke 1 101,
            Effect.Get 1 "/srv/10.0.0.5:9000"]) ∧
    rA.GetServerInfo okEnv
        (tA ++ [Effect.Delete 1 "/srv/10.0.0.5:9000", Effect.Revoke 1 101])
      ≠ some (rA.srvInfo, none,
          tA ++ [Effect.Delete 1 "/srv/10.0.0.5:9000", Effect.Revoke 1 101,
            Effect.Get 1 "/srv/10.0.0.5:9000"]) := by
  refine ⟨rfl, rfl, rfl, by decide⟩

end Etcd
